import Mathlib

/-!
Shallow embedding of the core of the MENA bias-evaluation pipeline
(`custom_metrics.py`, `pipeline.py`, `ab_testing.py`) and proofs of its
specified properties.

Conventions of the embedding:
* The three aligned numpy arrays `predictions`, `ground_truth`,
  `sensitive_attribute` are modelled as one list of `Row`s (one row per
  index), which makes alignment hold by construction.
* Python floats are modelled by exact rationals `ℚ`; the properties at
  stake are arithmetic range/branching facts, not rounding facts.
* Quantities produced by scipy (p-values, test statistics) and by
  floating-point square roots (Cohen's d pooled std, Cramér's V) are taken
  as explicit inputs of the embedded functions: the source treats them as
  opaque library results.
* Wall-clock timestamps, logging and the free-form reporting `details`
  dict of `MetricResult` are not modelled; no verified property mentions
  them.
-/

/-- One aligned sample: predicted label, ground-truth label and
sensitive-attribute group at a common index. -/
structure Row where
  pred : String
  gt : String
  sens : String
deriving DecidableEq, Repr

/-- The `MetricResult` dataclass of `custom_metrics.py` (the reporting-only
`details` dict is omitted). -/
structure MetricResult where
  metric_name : String
  value : ℚ
  interpretation : String
  threshold : Option ℚ := none
  passed : Option Bool := none
deriving DecidableEq, Repr

/-- Embedding of `np.unique(sensitive_attribute)`: the distinct groups (order of first
appearance; numpy sorts, but every property proved below is
order-independent). -/
def uniqueGroups (rows : List Row) : List String :=
  (rows.map Row.sens).dedup

/-- the rows selected by the boolean mask `sensitive_attribute == group` -/
def groupRows (rows : List Row) (g : String) : List Row :=
  rows.filter (fun r => r.sens == g)

/-- Embedding of `(predictions[mask] == 'positive').mean()`. -/
def posRate (grp : List Row) : ℚ :=
  ((grp.filter (fun r => r.pred == "positive")).length : ℚ) / grp.length

/-- the `positive_rates` list built by `DemographicParity.compute` and
`DisparateImpact.compute`: one rate per group whose mask is nonempty -/
def positiveRates (rows : List Row) : List ℚ :=
  (uniqueGroups rows).filterMap (fun g =>
    let grp := groupRows rows g
    if grp.length > 0 then some (posRate grp) else none)

/-- Python `max` over a nonempty list (`listMax [] = 0` is never used by the
embedded code: the branch guards rule the empty list out). -/
def listMax : List ℚ → ℚ
  | [] => 0
  | [x] => x
  | x :: y :: xs => max x (listMax (y :: xs))

/-- Python `min` over a nonempty list. -/
def listMin : List ℚ → ℚ
  | [] => 0
  | [x] => x
  | x :: y :: xs => min x (listMin (y :: xs))

/-- The `'✅ Fair' if passed else '⚠️ Biased'` prefix shared by the
interpretation strings -/
def fairTag (passed : Bool) : String :=
  if passed then "✅ Fair" else "⚠️ Biased"

/-- Embedding of `DemographicParity.compute` (custom_metrics.py lines 60–104); the
numeric interpolation of the interpretation string renders the exact
rational with `toString` instead of Python's `:.3f`. -/
def DemographicParity.compute (threshold : ℚ) (rows : List Row) : MetricResult :=
  let rates := positiveRates rows
  if rates.length < 2 then
    { metric_name := "Demographic Parity"
      value := 0
      interpretation := "Not enough groups to compute"
      threshold := some threshold
      passed := some true }
  else
    let dpd := listMax rates - listMin rates
    let passed := decide (dpd ≤ threshold)
    { metric_name := "Demographic Parity"
      value := dpd
      interpretation := fairTag passed ++ ": Max difference of " ++ toString dpd
        ++ " between groups (" ++ (if passed then "within" else "exceeds")
        ++ " threshold " ++ toString threshold ++ ")"
      threshold := some threshold
      passed := some passed }

/-- per-group true-positive rate of `EqualizedOdds.compute`: `TP / actual
positives`, with a zero denominator giving 0 -/
def groupTPR (grp : List Row) : ℚ :=
  let tp := (grp.filter (fun r => r.pred == "positive" && r.gt == "positive")).length
  let ap := (grp.filter (fun r => r.gt == "positive")).length
  if ap > 0 then (tp : ℚ) / ap else 0

/-- per-group false-positive rate of `EqualizedOdds.compute`: `FP / actual
negatives`, with a zero denominator giving 0 -/
def groupFPR (grp : List Row) : ℚ :=
  let fp := (grp.filter (fun r => r.pred == "positive" && !(r.gt == "positive"))).length
  let an := (grp.filter (fun r => !(r.gt == "positive"))).length
  if an > 0 then (fp : ℚ) / an else 0

/-- per-group precision (PPV) of `PredictiveParityDifference.compute`:
`TP / predicted positives`, with a zero denominator giving 0 -/
def groupPrecision (grp : List Row) : ℚ :=
  let tp := (grp.filter (fun r => r.pred == "positive" && r.gt == "positive")).length
  let pp := (grp.filter (fun r => r.pred == "positive")).length
  if pp > 0 then (tp : ℚ) / pp else 0

/-- Embedding of `EqualizedOdds.compute` (custom_metrics.py lines 120–182). -/
def EqualizedOdds.compute (threshold : ℚ) (rows : List Row) : MetricResult :=
  let gs := uniqueGroups rows
  let tprList := gs.map (fun g => groupTPR (groupRows rows g))
  let fprList := gs.map (fun g => groupFPR (groupRows rows g))
  if tprList.length < 2 then
    { metric_name := "Equalized Odds"
      value := 0
      interpretation := "Not enough groups to compute"
      threshold := some threshold
      passed := some true }
  else
    let tprDiff := listMax tprList - listMin tprList
    let fprDiff := listMax fprList - listMin fprList
    let eod := max tprDiff fprDiff
    let passed := decide (eod ≤ threshold)
    { metric_name := "Equalized Odds"
      value := eod
      interpretation := fairTag passed ++ ": Max difference of " ++ toString eod
        ++ " (" ++ (if passed then "within" else "exceeds")
        ++ " threshold " ++ toString threshold ++ ")"
      threshold := some threshold
      passed := some passed }

/-- Embedding of `DisparateImpact.compute` (custom_metrics.py lines 198–242); the Python
guard `len(positive_rates) < 2 or min(positive_rates) == 0` short-circuits,
so `min` is only taken on a nonempty list, as here. -/
def DisparateImpact.compute (threshold : ℚ) (rows : List Row) : MetricResult :=
  let rates := positiveRates rows
  if rates.length < 2 ∨ listMin rates = 0 then
    { metric_name := "Disparate Impact"
      value := 1
      interpretation := "Cannot compute (zero rates)"
      threshold := some threshold
      passed := some true }
  else
    let di := listMin rates / listMax rates
    let passed := decide (threshold ≤ di)
    { metric_name := "Disparate Impact"
      value := di
      interpretation := fairTag passed ++ ": Ratio of " ++ toString di
        ++ " (" ++ (if passed then "meets" else "below")
        ++ " threshold " ++ toString threshold ++ ")"
      threshold := some threshold
      passed := some passed }

/-- Embedding of `PredictiveParityDifference.compute` (custom_metrics.py lines 258–306). -/
def PredictiveParityDifference.compute (threshold : ℚ) (rows : List Row) : MetricResult :=
  let gs := uniqueGroups rows
  let precisionList := gs.map (fun g => groupPrecision (groupRows rows g))
  if precisionList.length < 2 then
    { metric_name := "Predictive Parity"
      value := 0
      interpretation := "Not enough groups to compute"
      threshold := some threshold
      passed := some true }
  else
    let ppd := listMax precisionList - listMin precisionList
    let passed := decide (ppd ≤ threshold)
    { metric_name := "Predictive Parity"
      value := ppd
      interpretation := fairTag passed ++ ": Precision difference of " ++ toString ppd
        ++ " (" ++ (if passed then "within" else "exceeds")
        ++ " threshold " ++ toString threshold ++ ")"
      threshold := some threshold
      passed := some passed }

/-- A registered metric's `compute`: either a result or a raised exception
(`Except.error` models the Python exception carrying its message). -/
abbrev CMetric := List Row → Except String MetricResult

/-- Embedding of `CustomMetricRegistry.compute_all` (custom_metrics.py lines 332–348):
every registered metric is invoked on the same input; a metric whose
`compute` raises is logged and skipped, the rest of the batch proceeds. -/
def computeAll (metrics : List CMetric) (rows : List Row) : List MetricResult :=
  match metrics with
  | [] => []
  | m :: ms =>
    match m rows with
    | Except.ok r => r :: computeAll ms rows
    | Except.error _ => computeAll ms rows

/-- the summary dict built by `CustomMetricRegistry.get_summary` -/
structure Summary where
  total_metrics : Nat
  passed : Nat
  failed : Nat
  pass_rate : ℚ
  results : List (String × ℚ × Option Bool × String)
deriving DecidableEq, Repr

/-- Embedding of `CustomMetricRegistry.get_summary` (custom_metrics.py lines 350–369).
Python truthiness: `if r.passed` counts only `True` (both `None` and
`False` are falsy); `r.passed is False` counts only `False`. -/
def getSummary (results : List MetricResult) : Summary :=
  let passedCount := (results.filter (fun r => r.passed == some true)).length
  let failedCount := (results.filter (fun r => r.passed == some false)).length
  { total_metrics := results.length
    passed := passedCount
    failed := failedCount
    pass_rate := if results.isEmpty then 0 else (passedCount : ℚ) / results.length
    results := results.map (fun r => (r.metric_name, r.value, r.passed, r.interpretation)) }

/-- the decision dict built by `OODALoop.decide` -/
structure Decision where
  severity : String
  recommended_actions : List String
  priority : Nat
deriving DecidableEq, Repr

/-- Embedding of `OODALoop.decide` (pipeline.py lines 99–118): reads only
`orientation['accuracy']`, so it is embedded as a function of that rational.
The dict starts with `recommended_actions = []`, `priority = 0` and exactly
one branch of the if/elif/else appends one action and sets the priority. -/
def OODALoop.decide (accuracy : ℚ) : Decision :=
  let severity :=
    if accuracy < 7/10 then "high" else if accuracy < 17/20 then "medium" else "low"
  if accuracy < 7/10 then
    { severity := severity
      recommended_actions := ["Immediate model retraining required"]
      priority := 1 }
  else if accuracy < 17/20 then
    { severity := severity
      recommended_actions := ["Consider data augmentation"]
      priority := 2 }
  else
    { severity := severity
      recommended_actions := ["Monitor for drift"]
      priority := 3 }

/-- A pandas DataFrame as `OODALoop.observe` consumes it: named columns and
aligned rows of optionally-missing cells. -/
structure DataFrame where
  cols : List String
  rows : List (List (Option String))
deriving DecidableEq, Repr

/-- Embedding of `data.shape`: (number of rows, number of columns). -/
def DataFrame.shape (d : DataFrame) : Nat × Nat :=
  (d.rows.length, d.cols.length)

/-- Embedding of `data.isnull().sum().to_dict()`: per column, the count of missing cells. -/
def DataFrame.missingValues (d : DataFrame) : List (String × Nat) :=
  (List.range d.cols.length).map (fun j =>
    (d.cols.getD j "", (d.rows.filter (fun row => row.getD j none == none)).length))

/-- the observation dict built by `OODALoop.observe` (the wall-clock
`timestamp` and the pandas dtype objects are not modelled) -/
structure Observation where
  data_shape : Nat × Nat
  columns : List String
  missing_values : List (String × Nat)
deriving DecidableEq, Repr

/-- Embedding of `OODALoop.observe` (pipeline.py lines 62–72): records a snapshot of any
DataFrame; the source has no validation or error path. -/
def OODALoop.observe (data : DataFrame) : Observation :=
  { data_shape := data.shape
    columns := data.cols
    missing_values := data.missingValues }

/-- Embedding of `np.mean` on a list of floats (the embedded code only takes means of
nonempty lists; numpy's NaN-on-empty is outside the rational model) -/
def listMean (l : List ℚ) : ℚ :=
  l.sum / l.length

/-- The `ABTestResult` dataclass of `ab_testing.py`. -/
structure ABTestResult where
  test_name : String
  variant_a_mean : ℚ
  variant_b_mean : ℚ
  difference : ℚ
  percent_change : ℚ
  p_value : ℚ
  is_significant : Bool
  confidence_level : ℚ
  recommendation : String
  effect_size : ℚ
deriving DecidableEq, Repr

/-- the recommendation string of `t_test`/`mann_whitney_test` (the Python
`:+.2f` interpolation of the percent change is not rendered) -/
def abRecommendation (significant : Bool) (difference : ℚ) : String :=
  if significant then
    if difference > 0 then "✅ Variant B is significantly better"
    else "⚠️ Variant A is significantly better"
  else "⚪ No significant difference detected"

/-- Embedding of `ABTester.t_test` (ab_testing.py lines 60–111). `pValue` is the scipy
`ttest_ind` p-value and `pooledStd` the floating-point
`np.sqrt((var a + var b)/2)`, both opaque library results taken as inputs;
everything else follows the source. `alpha` is the instance's significance
level (default 0.05). -/
def ABTester.t_test (alpha pValue pooledStd : ℚ) (variant_a variant_b : List ℚ)
    (test_name : String) : ABTestResult :=
  let mean_a := listMean variant_a
  let mean_b := listMean variant_b
  let difference := mean_b - mean_a
  let percent_change := if mean_a ≠ 0 then difference / mean_a * 100 else 0
  let is_significant := decide (pValue < alpha)
  let effect_size := if pooledStd ≠ 0 then difference / pooledStd else 0
  { test_name := test_name
    variant_a_mean := mean_a
    variant_b_mean := mean_b
    difference := difference
    percent_change := percent_change
    p_value := pValue
    is_significant := is_significant
    confidence_level := 1 - alpha
    recommendation := abRecommendation is_significant difference
    effect_size := effect_size }

/-- Embedding of `ABTester.mann_whitney_test` (ab_testing.py lines 113–163). `pValue` and
`uStat` are the scipy `mannwhitneyu` outputs taken as inputs. -/
def ABTester.mann_whitney_test (alpha pValue uStat : ℚ) (variant_a variant_b : List ℚ)
    (test_name : String) : ABTestResult :=
  let mean_a := listMean variant_a
  let mean_b := listMean variant_b
  let difference := mean_b - mean_a
  let percent_change := if mean_a ≠ 0 then difference / mean_a * 100 else 0
  let is_significant := decide (pValue < alpha)
  let effect_size := 1 - (2 * uStat) / ((variant_a.length : ℚ) * variant_b.length)
  { test_name := test_name
    variant_a_mean := mean_a
    variant_b_mean := mean_b
    difference := difference
    percent_change := percent_change
    p_value := pValue
    is_significant := is_significant
    confidence_level := 1 - alpha
    recommendation := abRecommendation is_significant difference
    effect_size := effect_size }

/-- the per-category proportions of `chi_square_test`: `counts / counts.sum()`
when the total is positive, else the raw counts -/
def chiProps (counts : List ℚ) : List ℚ :=
  if counts.sum > 0 then counts.map (fun c => c / counts.sum) else counts

/-- Embedding of `ABTester.chi_square_test` (ab_testing.py 165–221). `pValue` is the scipy
`chi2_contingency` p-value and `effectSize` the floating-point Cramér's V
(`np.sqrt(chi2 / (n * (min shape - 1)))`), both taken as inputs. -/
def ABTester.chi_square_test (alpha pValue effectSize : ℚ)
    (variant_a_counts variant_b_counts : List ℚ) (test_name : String) : ABTestResult :=
  let prop_a := chiProps variant_a_counts
  let prop_b := chiProps variant_b_counts
  let mean_a := listMean prop_a
  let mean_b := listMean prop_b
  let difference := mean_b - mean_a
  let percent_change := if mean_a ≠ 0 then difference / mean_a * 100 else 0
  let is_significant := decide (pValue < alpha)
  { test_name := test_name
    variant_a_mean := mean_a
    variant_b_mean := mean_b
    difference := difference
    percent_change := percent_change
    p_value := pValue
    is_significant := is_significant
    confidence_level := 1 - alpha
    recommendation := if is_significant then "✅ Distributions are significantly different"
      else "⚪ No significant difference in distributions"
    effect_size := effectSize }

/-- Embedding of `max(means, key=means.get)`: the first key attaining the maximal value
(Python `max` keeps the first of equals; `""` stands for the `ValueError` on
an empty dict, unreachable in the source's uses) -/
def bestVariant (means : List (String × ℚ)) : String :=
  match means with
  | [] => ""
  | m :: ms => (ms.foldl (fun acc p => if p.2 > acc.2 then p else acc) m).1

/-- the result dict of `compare_multiple_variants` -/
structure AnovaResult where
  test_name : String
  f_statistic : ℚ
  p_value : ℚ
  is_significant : Bool
  means : List (String × ℚ)
  best_variant : String
  recommendation : String
deriving DecidableEq, Repr

/-- Embedding of `ABTester.compare_multiple_variants` (ab_testing.py lines 325–364).
`fStat` and `pValue` are the scipy `f_oneway` outputs taken as inputs. -/
def ABTester.compare_multiple_variants (alpha fStat pValue : ℚ)
    (variants : List (String × List ℚ)) (test_name : String) : AnovaResult :=
  let is_significant := decide (pValue < alpha)
  let means := variants.map (fun v => (v.1, listMean v.2))
  let best := bestVariant means
  { test_name := test_name
    f_statistic := fStat
    p_value := pValue
    is_significant := is_significant
    means := means
    best_variant := best
    recommendation := if is_significant then "✅ Significant difference found. Best: " ++ best
      else "⚪ No significant difference between variants" }

/-- a metric whose `compute` returns normally -/
def okMetric (res : MetricResult) : CMetric := fun _ => Except.ok res

/-- a metric whose `compute` raises -/
def failMetric (msg : String) : CMetric := fun _ => Except.error msg

/-! ### Supporting lemmas -/

theorem natFrac_nonneg (a b : Nat) : 0 ≤ (a : ℚ) / b := by
  positivity

theorem natFrac_le_one {a b : Nat} (h : a ≤ b) : (a : ℚ) / b ≤ 1 := by
  rcases Nat.eq_zero_or_pos b with hb | hb
  · subst hb; simp
  · rw [div_le_one (by exact_mod_cast hb)]
    exact_mod_cast h

theorem filter_and_length_le_right (l : List Row) (p q : Row → Bool) :
    (l.filter (fun a => p a && q a)).length ≤ (l.filter q).length := by
  induction l with
  | nil => simp
  | cons x xs ih =>
    by_cases hq : q x = true
    · by_cases hp : p x = true
      · simp [List.filter_cons, hq, hp]; omega
      · simp only [List.filter_cons]
        simp [hq, hp]
        omega
    · simp only [Bool.not_eq_true] at hq
      simp [List.filter_cons, hq]
      exact ih

theorem filter_and_length_le_left (l : List Row) (p q : Row → Bool) :
    (l.filter (fun a => p a && q a)).length ≤ (l.filter p).length := by
  have h : ∀ a, (p a && q a) = (q a && p a) := by intro a; exact Bool.and_comm _ _
  calc (l.filter (fun a => p a && q a)).length
      = (l.filter (fun a => q a && p a)).length := by
        simp only [h]
    _ ≤ (l.filter p).length := filter_and_length_le_right l q p

theorem posRate_nonneg (grp : List Row) : 0 ≤ posRate grp :=
  natFrac_nonneg _ _

theorem posRate_le_one (grp : List Row) : posRate grp ≤ 1 :=
  natFrac_le_one (List.length_filter_le _ _)

theorem groupTPR_nonneg (grp : List Row) : 0 ≤ groupTPR grp := by
  simp only [groupTPR]
  split
  · exact natFrac_nonneg _ _
  · exact le_refl 0

theorem groupTPR_le_one (grp : List Row) : groupTPR grp ≤ 1 := by
  simp only [groupTPR]
  split
  · exact natFrac_le_one (filter_and_length_le_right grp _ _)
  · exact zero_le_one

theorem groupFPR_nonneg (grp : List Row) : 0 ≤ groupFPR grp := by
  simp only [groupFPR]
  split
  · exact natFrac_nonneg _ _
  · exact le_refl 0

theorem groupFPR_le_one (grp : List Row) : groupFPR grp ≤ 1 := by
  simp only [groupFPR]
  split
  · exact natFrac_le_one (filter_and_length_le_right grp _ _)
  · exact zero_le_one

theorem groupPrecision_nonneg (grp : List Row) : 0 ≤ groupPrecision grp := by
  simp only [groupPrecision]
  split
  · exact natFrac_nonneg _ _
  · exact le_refl 0

theorem groupPrecision_le_one (grp : List Row) : groupPrecision grp ≤ 1 := by
  simp only [groupPrecision]
  split
  · exact natFrac_le_one (filter_and_length_le_left grp _ _)
  · exact zero_le_one

theorem listMax_mem : ∀ {l : List ℚ}, l ≠ [] → listMax l ∈ l
  | [], h => absurd rfl h
  | [x], _ => by simp [listMax]
  | x :: y :: xs, _ => by
    have ih := listMax_mem (l := y :: xs) (by simp)
    rw [listMax]
    rcases max_choice x (listMax (y :: xs)) with h | h <;> rw [h]
    · exact List.mem_cons_self _ _
    · exact List.mem_cons_of_mem _ ih

theorem listMin_mem : ∀ {l : List ℚ}, l ≠ [] → listMin l ∈ l
  | [], h => absurd rfl h
  | [x], _ => by simp [listMin]
  | x :: y :: xs, _ => by
    have ih := listMin_mem (l := y :: xs) (by simp)
    rw [listMin]
    rcases min_choice x (listMin (y :: xs)) with h | h <;> rw [h]
    · exact List.mem_cons_self _ _
    · exact List.mem_cons_of_mem _ ih

theorem le_listMax_of_mem : ∀ {l : List ℚ} {x : ℚ}, x ∈ l → x ≤ listMax l
  | [], _, h => absurd h (List.not_mem_nil _)
  | [y], x, h => by
    simp at h; subst h; simp [listMax]
  | y :: z :: xs, x, h => by
    rw [listMax]
    rcases List.mem_cons.mp h with h | h
    · subst h; exact le_max_left _ _
    · exact le_trans (le_listMax_of_mem h) (le_max_right _ _)

theorem listMin_le_of_mem : ∀ {l : List ℚ} {x : ℚ}, x ∈ l → listMin l ≤ x
  | [], _, h => absurd h (List.not_mem_nil _)
  | [y], x, h => by
    simp at h; subst h; simp [listMin]
  | y :: z :: xs, x, h => by
    rw [listMin]
    rcases List.mem_cons.mp h with h | h
    · subst h; exact min_le_left _ _
    · exact le_trans (min_le_right _ _) (listMin_le_of_mem h)

theorem listMin_le_listMax {l : List ℚ} (h : l ≠ []) : listMin l ≤ listMax l :=
  le_trans (listMin_le_of_mem (listMax_mem h)) (le_refl _)

theorem groupRows_length_pos {rows : List Row} {g : String}
    (h : g ∈ uniqueGroups rows) : 0 < (groupRows rows g).length := by
  rw [uniqueGroups, List.mem_dedup] at h
  rcases List.mem_map.mp h with ⟨r, hr, hsens⟩
  have : r ∈ groupRows rows g := by
    rw [groupRows, List.mem_filter]
    exact ⟨hr, by simp [hsens]⟩
  exact List.length_pos.mpr (List.ne_nil_of_mem this)

theorem filterMap_rate_eq (rows : List Row) :
    ∀ gs : List String, (∀ g ∈ gs, 0 < (groupRows rows g).length) →
      gs.filterMap (fun g =>
          let grp := groupRows rows g
          if grp.length > 0 then some (posRate grp) else none)
        = gs.map (fun g => posRate (groupRows rows g))
  | [], _ => by simp
  | g :: gs, h => by
    simp only [List.filterMap_cons, List.map_cons]
    rw [if_pos (h g (List.mem_cons_self _ _))]
    dsimp only
    congr 1
    exact filterMap_rate_eq rows gs (fun x hx => h x (List.mem_cons_of_mem _ hx))

theorem positiveRates_eq (rows : List Row) :
    positiveRates rows = (uniqueGroups rows).map (fun g => posRate (groupRows rows g)) := by
  rw [positiveRates]
  exact filterMap_rate_eq rows _ (fun g hg => groupRows_length_pos hg)

theorem positiveRates_length (rows : List Row) :
    (positiveRates rows).length = (uniqueGroups rows).length := by
  rw [positiveRates_eq, List.length_map]

theorem positiveRates_mem_bounds {rows : List Row} {r : ℚ}
    (h : r ∈ positiveRates rows) : 0 ≤ r ∧ r ≤ 1 := by
  rw [positiveRates_eq] at h
  rcases List.mem_map.mp h with ⟨g, _, hval⟩
  exact hval ▸ ⟨posRate_nonneg _, posRate_le_one _⟩

theorem dp_value_bounds (θ : ℚ) (rows : List Row) :
    0 ≤ (DemographicParity.compute θ rows).value ∧
      (DemographicParity.compute θ rows).value ≤ 1 := by
  simp only [DemographicParity.compute]
  split
  next h => exact ⟨le_refl 0, zero_le_one⟩
  next h =>
    have hne : positiveRates rows ≠ [] := by
      intro hnil; rw [hnil] at h; simp at h
    have hmax1 : listMax (positiveRates rows) ≤ 1 :=
      (positiveRates_mem_bounds (listMax_mem hne)).2
    have hmin0 : 0 ≤ listMin (positiveRates rows) :=
      (positiveRates_mem_bounds (listMin_mem hne)).1
    have hmm : listMin (positiveRates rows) ≤ listMax (positiveRates rows) :=
      listMin_le_listMax hne
    constructor
    · dsimp only; linarith
    · dsimp only; linarith

theorem eo_value_bounds (θ : ℚ) (rows : List Row) :
    0 ≤ (EqualizedOdds.compute θ rows).value ∧
      (EqualizedOdds.compute θ rows).value ≤ 1 := by
  simp only [EqualizedOdds.compute]
  split
  next h => exact ⟨le_refl 0, zero_le_one⟩
  next h =>
    have hgs : uniqueGroups rows ≠ [] := by
      intro hnil; rw [hnil] at h; simp at h
    have hTne : (uniqueGroups rows).map (fun g => groupTPR (groupRows rows g)) ≠ [] :=
      fun hmap => hgs (List.map_eq_nil_iff.mp hmap)
    have hFne : (uniqueGroups rows).map (fun g => groupFPR (groupRows rows g)) ≠ [] :=
      fun hmap => hgs (List.map_eq_nil_iff.mp hmap)
    have hTbound : ∀ x ∈ (uniqueGroups rows).map (fun g => groupTPR (groupRows rows g)),
        0 ≤ x ∧ x ≤ 1 := by
      intro x hx
      rcases List.mem_map.mp hx with ⟨g, _, hval⟩
      exact hval ▸ ⟨groupTPR_nonneg _, groupTPR_le_one _⟩
    have hFbound : ∀ x ∈ (uniqueGroups rows).map (fun g => groupFPR (groupRows rows g)),
        0 ≤ x ∧ x ≤ 1 := by
      intro x hx
      rcases List.mem_map.mp hx with ⟨g, _, hval⟩
      exact hval ▸ ⟨groupFPR_nonneg _, groupFPR_le_one _⟩
    have hT1 := (hTbound _ (listMax_mem hTne)).2
    have hT0 := (hTbound _ (listMin_mem hTne)).1
    have hTmm := listMin_le_listMax hTne
    have hF1 := (hFbound _ (listMax_mem hFne)).2
    have hF0 := (hFbound _ (listMin_mem hFne)).1
    have hFmm := listMin_le_listMax hFne
    constructor
    · dsimp only
      exact le_trans (by linarith) (le_max_left _ _)
    · dsimp only
      exact max_le (by linarith) (by linarith)

theorem pp_value_bounds (θ : ℚ) (rows : List Row) :
    0 ≤ (PredictiveParityDifference.compute θ rows).value ∧
      (PredictiveParityDifference.compute θ rows).value ≤ 1 := by
  simp only [PredictiveParityDifference.compute]
  split
  next h => exact ⟨le_refl 0, zero_le_one⟩
  next h =>
    have hgs : uniqueGroups rows ≠ [] := by
      intro hnil; rw [hnil] at h; simp at h
    have hPne : (uniqueGroups rows).map (fun g => groupPrecision (groupRows rows g)) ≠ [] :=
      fun hmap => hgs (List.map_eq_nil_iff.mp hmap)
    have hPbound : ∀ x ∈ (uniqueGroups rows).map (fun g => groupPrecision (groupRows rows g)),
        0 ≤ x ∧ x ≤ 1 := by
      intro x hx
      rcases List.mem_map.mp hx with ⟨g, _, hval⟩
      exact hval ▸ ⟨groupPrecision_nonneg _, groupPrecision_le_one _⟩
    have hP1 := (hPbound _ (listMax_mem hPne)).2
    have hP0 := (hPbound _ (listMin_mem hPne)).1
    have hPmm := listMin_le_listMax hPne
    constructor
    · dsimp only; linarith
    · dsimp only; linarith

theorem di_value_bounds (θ : ℚ) (rows : List Row) :
    0 < (DisparateImpact.compute θ rows).value ∧
      (DisparateImpact.compute θ rows).value ≤ 1 := by
  simp only [DisparateImpact.compute]
  split
  next h => exact ⟨zero_lt_one, le_refl 1⟩
  next h =>
    push_neg at h
    obtain ⟨hlen, hmin⟩ := h
    have hne : positiveRates rows ≠ [] := by
      intro hnil; rw [hnil] at hlen; simp at hlen
    have hmin0 : 0 ≤ listMin (positiveRates rows) :=
      (positiveRates_mem_bounds (listMin_mem hne)).1
    have hminpos : 0 < listMin (positiveRates rows) :=
      lt_of_le_of_ne hmin0 (Ne.symm hmin)
    have hmaxpos : 0 < listMax (positiveRates rows) :=
      lt_of_lt_of_le hminpos (listMin_le_listMax hne)
    constructor
    · dsimp only
      exact div_pos hminpos hmaxpos
    · dsimp only
      rw [div_le_one hmaxpos]
      exact listMin_le_listMax hne

theorem di_degenerate_value (θ : ℚ) (rows : List Row)
    (h : (positiveRates rows).length < 2 ∨ listMin (positiveRates rows) = 0) :
    DisparateImpact.compute θ rows =
      { metric_name := "Disparate Impact"
        value := 1
        interpretation := "Cannot compute (zero rates)"
        threshold := some θ
        passed := some true } := by
  simp only [DisparateImpact.compute, if_pos h]

theorem dp_insufficient (θ : ℚ) (rows : List Row)
    (h : (uniqueGroups rows).length < 2) :
    DemographicParity.compute θ rows =
      { metric_name := "Demographic Parity"
        value := 0
        interpretation := "Not enough groups to compute"
        threshold := some θ
        passed := some true } := by
  have hlen : (positiveRates rows).length < 2 := by
    rw [positiveRates_length]; exact h
  simp only [DemographicParity.compute, if_pos hlen]

theorem eo_insufficient (θ : ℚ) (rows : List Row)
    (h : (uniqueGroups rows).length < 2) :
    EqualizedOdds.compute θ rows =
      { metric_name := "Equalized Odds"
        value := 0
        interpretation := "Not enough groups to compute"
        threshold := some θ
        passed := some true } := by
  have hlen : ((uniqueGroups rows).map (fun g => groupTPR (groupRows rows g))).length < 2 := by
    rw [List.length_map]; exact h
  simp only [EqualizedOdds.compute, if_pos hlen]

theorem pp_insufficient (θ : ℚ) (rows : List Row)
    (h : (uniqueGroups rows).length < 2) :
    PredictiveParityDifference.compute θ rows =
      { metric_name := "Predictive Parity"
        value := 0
        interpretation := "Not enough groups to compute"
        threshold := some θ
        passed := some true } := by
  have hlen : ((uniqueGroups rows).map (fun g => groupPrecision (groupRows rows g))).length < 2 := by
    rw [List.length_map]; exact h
  simp only [PredictiveParityDifference.compute, if_pos hlen]

theorem di_insufficient (θ : ℚ) (rows : List Row)
    (h : (uniqueGroups rows).length < 2) :
    DisparateImpact.compute θ rows =
      { metric_name := "Disparate Impact"
        value := 1
        interpretation := "Cannot compute (zero rates)"
        threshold := some θ
        passed := some true } :=
  di_degenerate_value θ rows (Or.inl (by rw [positiveRates_length]; exact h))

theorem di_zero_rate (θ : ℚ) (rows : List Row) {r : ℚ}
    (hr : r ∈ positiveRates rows) (hr0 : r = 0) :
    DisparateImpact.compute θ rows =
      { metric_name := "Disparate Impact"
        value := 1
        interpretation := "Cannot compute (zero rates)"
        threshold := some θ
        passed := some true } := by
  have hne : positiveRates rows ≠ [] := List.ne_nil_of_mem hr
  have hmin0 : listMin (positiveRates rows) = 0 :=
    le_antisymm (hr0 ▸ listMin_le_of_mem hr)
      (positiveRates_mem_bounds (listMin_mem hne)).1
  exact di_degenerate_value θ rows (Or.inr hmin0)

theorem ooda_decide_high {a : ℚ} (h : a < 7/10) :
    OODALoop.decide a = ⟨"high", ["Immediate model retraining required"], 1⟩ := by
  simp only [OODALoop.decide, if_pos h]

theorem ooda_decide_medium {a : ℚ} (h1 : 7/10 ≤ a) (h2 : a < 17/20) :
    OODALoop.decide a = ⟨"medium", ["Consider data augmentation"], 2⟩ := by
  simp only [OODALoop.decide, if_neg (not_lt.mpr h1), if_pos h2]

theorem ooda_decide_low {a : ℚ} (h : 17/20 ≤ a) :
    OODALoop.decide a = ⟨"low", ["Monitor for drift"], 3⟩ := by
  have h7 : ¬a < 7/10 := not_lt.mpr (le_trans (by norm_num) h)
  simp only [OODALoop.decide, if_neg h7, if_neg (not_lt.mpr h)]

/-! ### Claim theorems -/

/-- C1: for all aligned inputs the Demographic Parity, Equalized Odds and
Predictive Parity values lie in [0, 1], the Disparate Impact value lies in
(0, 1], and the Disparate Impact value equals exactly 1 in the degenerate
case (fewer than two group rates, or a zero minimum rate). -/
theorem metric_values_in_range (θ : ℚ) (rows : List Row) :
    (0 ≤ (DemographicParity.compute θ rows).value ∧
      (DemographicParity.compute θ rows).value ≤ 1)
  ∧ (0 ≤ (EqualizedOdds.compute θ rows).value ∧
      (EqualizedOdds.compute θ rows).value ≤ 1)
  ∧ (0 ≤ (PredictiveParityDifference.compute θ rows).value ∧
      (PredictiveParityDifference.compute θ rows).value ≤ 1)
  ∧ (0 < (DisparateImpact.compute θ rows).value ∧
      (DisparateImpact.compute θ rows).value ≤ 1)
  ∧ ((positiveRates rows).length < 2 ∨ listMin (positiveRates rows) = 0 →
      (DisparateImpact.compute θ rows).value = 1) :=
  ⟨dp_value_bounds θ rows, eo_value_bounds θ rows, pp_value_bounds θ rows,
    di_value_bounds θ rows, fun h => by rw [di_degenerate_value θ rows h]⟩

/-- witness for C1 at a concrete single-group input -/
theorem metric_values_in_range_witness :
    (DisparateImpact.compute (4/5) [⟨"positive", "positive", "g"⟩]).value = 1 :=
  (metric_values_in_range (4/5) [⟨"positive", "positive", "g"⟩]).2.2.2.2
    (Or.inl (by decide))

/-- C2: `OODALoop.decide` is a pure function of the orientation's accuracy:
below 0.70 it yields severity "high", priority 1 and the retraining action;
in [0.70, 0.85) severity "medium", priority 2 and the data-augmentation
action; at or above 0.85 severity "low", priority 3 and the monitoring
action; exactly one recommended action is appended per decision, and the
boundaries 0.70 and 0.85 yield "medium" and "low" respectively. -/
theorem ooda_decide_spec :
    (∀ a : ℚ, (OODALoop.decide a).recommended_actions.length = 1)
  ∧ (∀ a : ℚ, a < 7/10 →
      OODALoop.decide a = ⟨"high", ["Immediate model retraining required"], 1⟩)
  ∧ (∀ a : ℚ, 7/10 ≤ a → a < 17/20 →
      OODALoop.decide a = ⟨"medium", ["Consider data augmentation"], 2⟩)
  ∧ (∀ a : ℚ, 17/20 ≤ a →
      OODALoop.decide a = ⟨"low", ["Monitor for drift"], 3⟩)
  ∧ OODALoop.decide (7/10) = ⟨"medium", ["Consider data augmentation"], 2⟩
  ∧ OODALoop.decide (17/20) = ⟨"low", ["Monitor for drift"], 3⟩ :=
  ⟨fun a => by
      simp only [OODALoop.decide]
      split
      · rfl
      · split <;> rfl,
    fun _ h => ooda_decide_high h,
    fun _ h1 h2 => ooda_decide_medium h1 h2,
    fun _ h => ooda_decide_low h,
    ooda_decide_medium (le_refl _) (by norm_num),
    ooda_decide_low (le_refl _)⟩

/-- witness for C2 at the spec's sample points 0.5, 0.75 and 0.9 -/
theorem ooda_decide_spec_witness :
    OODALoop.decide (1/2) = ⟨"high", ["Immediate model retraining required"], 1⟩
  ∧ OODALoop.decide (3/4) = ⟨"medium", ["Consider data augmentation"], 2⟩
  ∧ OODALoop.decide (9/10) = ⟨"low", ["Monitor for drift"], 3⟩ :=
  ⟨ooda_decide_spec.2.1 (1/2) (by norm_num),
    ooda_decide_spec.2.2.1 (3/4) (by norm_num) (by norm_num),
    ooda_decide_spec.2.2.2.1 (9/10) (by norm_num)⟩

/-- C3: with fewer than two distinct groups every metric returns a trivially
passing result — value 0 (Demographic Parity, Equalized Odds, Predictive
Parity) or 1 (Disparate Impact), `passed = True` and the degenerate
interpretation message — and Disparate Impact additionally returns value 1
with `passed = True` whenever any group's positive-prediction rate is 0. -/
theorem insufficient_groups_trivial (θ : ℚ) (rows : List Row) :
    ((uniqueGroups rows).length < 2 →
      DemographicParity.compute θ rows =
        { metric_name := "Demographic Parity", value := 0
          interpretation := "Not enough groups to compute"
          threshold := some θ, passed := some true }
      ∧ EqualizedOdds.compute θ rows =
        { metric_name := "Equalized Odds", value := 0
          interpretation := "Not enough groups to compute"
          threshold := some θ, passed := some true }
      ∧ PredictiveParityDifference.compute θ rows =
        { metric_name := "Predictive Parity", value := 0
          interpretation := "Not enough groups to compute"
          threshold := some θ, passed := some true }
      ∧ DisparateImpact.compute θ rows =
        { metric_name := "Disparate Impact", value := 1
          interpretation := "Cannot compute (zero rates)"
          threshold := some θ, passed := some true })
  ∧ (∀ r ∈ positiveRates rows, r = 0 →
      (DisparateImpact.compute θ rows).value = 1 ∧
        (DisparateImpact.compute θ rows).passed = some true) :=
  ⟨fun h => ⟨dp_insufficient θ rows h, eo_insufficient θ rows h,
      pp_insufficient θ rows h, di_insufficient θ rows h⟩,
    fun _ hr hr0 => by rw [di_zero_rate θ rows hr hr0]; exact ⟨rfl, rfl⟩⟩

/-- witness for C3: a one-group input, and a two-group input whose first
group has positive-prediction rate 0 -/
theorem insufficient_groups_trivial_witness :
    (DemographicParity.compute (1/10) [⟨"positive", "positive", "g"⟩] =
      { metric_name := "Demographic Parity", value := 0
        interpretation := "Not enough groups to compute"
        threshold := some (1/10), passed := some true }
    ∧ EqualizedOdds.compute (1/10) [⟨"positive", "positive", "g"⟩] =
      { metric_name := "Equalized Odds", value := 0
        interpretation := "Not enough groups to compute"
        threshold := some (1/10), passed := some true }
    ∧ PredictiveParityDifference.compute (1/10) [⟨"positive", "positive", "g"⟩] =
      { metric_name := "Predictive Parity", value := 0
        interpretation := "Not enough groups to compute"
        threshold := some (1/10), passed := some true }
    ∧ DisparateImpact.compute (1/10) [⟨"positive", "positive", "g"⟩] =
      { metric_name := "Disparate Impact", value := 1
        interpretation := "Cannot compute (zero rates)"
        threshold := some (1/10), passed := some true })
  ∧ (DisparateImpact.compute (4/5)
      [⟨"negative", "x", "a"⟩, ⟨"positive", "x", "b"⟩]).value = 1 := by
  constructor
  · exact (insufficient_groups_trivial (1/10) [⟨"positive", "positive", "g"⟩]).1 (by decide)
  · have hmem : posRate (groupRows [⟨"negative", "x", "a"⟩, ⟨"positive", "x", "b"⟩] "a")
        ∈ positiveRates [⟨"negative", "x", "a"⟩, ⟨"positive", "x", "b"⟩] := by
      rw [positiveRates_eq]
      exact List.mem_map.mpr ⟨"a", by decide, rfl⟩
    have h0 : posRate (groupRows [⟨"negative", "x", "a"⟩, ⟨"positive", "x", "b"⟩] "a") = 0 := by
      have hg : groupRows [⟨"negative", "x", "a"⟩, ⟨"positive", "x", "b"⟩] "a"
          = [⟨"negative", "x", "a"⟩] := by decide
      rw [hg]
      simp [posRate]
    exact ((insufficient_groups_trivial (4/5)
      [⟨"negative", "x", "a"⟩, ⟨"positive", "x", "b"⟩]).2 _ hmem h0).1

/-- C7: the `passed` field of every result of the four bias metrics is
always set (never `None`); in particular it can be `None` only in the
fewer-than-two-groups case — which even then sets it to `True`, the
degenerate case being treated as trivially fair. -/
theorem passed_field_always_set (θ : ℚ) (rows : List Row) :
    ((DemographicParity.compute θ rows).passed).isSome = true
  ∧ ((EqualizedOdds.compute θ rows).passed).isSome = true
  ∧ ((DisparateImpact.compute θ rows).passed).isSome = true
  ∧ ((PredictiveParityDifference.compute θ rows).passed).isSome = true
  ∧ ((uniqueGroups rows).length < 2 →
      (DemographicParity.compute θ rows).passed = some true
      ∧ (EqualizedOdds.compute θ rows).passed = some true
      ∧ (DisparateImpact.compute θ rows).passed = some true
      ∧ (PredictiveParityDifference.compute θ rows).passed = some true) := by
  refine ⟨?_, ?_, ?_, ?_, ?_⟩
  · simp only [DemographicParity.compute]; split <;> rfl
  · simp only [EqualizedOdds.compute]; split <;> rfl
  · simp only [DisparateImpact.compute]; split <;> rfl
  · simp only [PredictiveParityDifference.compute]; split <;> rfl
  · intro h
    rw [dp_insufficient θ rows h, eo_insufficient θ rows h,
      di_insufficient θ rows h, pp_insufficient θ rows h]
    exact ⟨rfl, rfl, rfl, rfl⟩

/-- witness for C7 at a concrete single-group input -/
theorem passed_field_always_set_witness :
    (DemographicParity.compute (1/10) [⟨"positive", "positive", "g"⟩]).passed = some true
  ∧ (EqualizedOdds.compute (1/10) [⟨"positive", "positive", "g"⟩]).passed = some true
  ∧ (DisparateImpact.compute (4/5) [⟨"positive", "positive", "g"⟩]).passed = some true
  ∧ (PredictiveParityDifference.compute (1/10)
      [⟨"positive", "positive", "g"⟩]).passed = some true :=
  ⟨((passed_field_always_set (1/10) [⟨"positive", "positive", "g"⟩]).2.2.2.2 (by decide)).1,
    ((passed_field_always_set (1/10) [⟨"positive", "positive", "g"⟩]).2.2.2.2 (by decide)).2.1,
    ((passed_field_always_set (4/5) [⟨"positive", "positive", "g"⟩]).2.2.2.2 (by decide)).2.2.1,
    ((passed_field_always_set (1/10) [⟨"positive", "positive", "g"⟩]).2.2.2.2 (by decide)).2.2.2⟩

theorem computeAll_eq_filterMap (ms : List CMetric) (rows : List Row) :
    computeAll ms rows = ms.filterMap (fun m => (m rows).toOption) := by
  induction ms with
  | nil => rfl
  | cons m ms ih =>
    simp only [computeAll, List.filterMap_cons]
    cases m rows with
    | ok r => simp [Except.toOption, ih]
    | error e => simp [Except.toOption, ih]

theorem computeAll_append (ms₁ ms₂ : List CMetric) (rows : List Row) :
    computeAll (ms₁ ++ ms₂) rows = computeAll ms₁ rows ++ computeAll ms₂ rows := by
  induction ms₁ with
  | nil => rfl
  | cons m ms ih =>
    simp only [List.cons_append, computeAll]
    cases m rows with
    | ok r => simp [ih]
    | error e => simp [ih]

/-- C4: `compute_all` invokes every registered metric on the same input and
keeps exactly the successful results: a raising metric is excluded from the
result list while every other metric's result is still returned, so one
failing metric never aborts the batch. -/
theorem compute_all_isolates_failures (ms₁ ms₂ : List CMetric) (bad : CMetric)
    (rows : List Row) :
    computeAll (ms₁ ++ ms₂) rows = computeAll ms₁ rows ++ computeAll ms₂ rows
  ∧ computeAll ms₁ rows = ms₁.filterMap (fun m => (m rows).toOption)
  ∧ ((bad rows).toOption = none →
      computeAll (ms₁ ++ bad :: ms₂) rows = computeAll ms₁ rows ++ computeAll ms₂ rows) := by
  refine ⟨computeAll_append ms₁ ms₂ rows, computeAll_eq_filterMap ms₁ rows, ?_⟩
  intro hbad
  rw [computeAll_append]
  congr 1
  simp only [computeAll]
  cases hb : bad rows with
  | ok r => rw [hb] at hbad; simp [Except.toOption] at hbad
  | error e => rfl

/-- witness for C4: a concrete batch in which the middle metric raises and
both surrounding metrics' results survive -/
theorem compute_all_isolates_failures_witness :
    computeAll [okMetric ⟨"m1", 0, "ok", none, none⟩, failMetric "boom",
        okMetric ⟨"m2", 1, "ok", none, none⟩] []
      = computeAll [okMetric ⟨"m1", 0, "ok", none, none⟩] []
        ++ computeAll [okMetric ⟨"m2", 1, "ok", none, none⟩] [] :=
  (compute_all_isolates_failures [okMetric ⟨"m1", 0, "ok", none, none⟩]
    [okMetric ⟨"m2", 1, "ok", none, none⟩] (failMetric "boom") []).2.2 rfl

/-- C5: `get_summary` reports `pass_rate = passed count / total count`, and
0 on an empty result list with no division error. -/
theorem get_summary_pass_rate (results : List MetricResult) :
    (getSummary results).pass_rate
      = ((results.filter (fun r => r.passed == some true)).length : ℚ) / (results.length : ℚ)
  ∧ (getSummary []).pass_rate = 0
  ∧ (getSummary results).passed = (results.filter (fun r => r.passed == some true)).length
  ∧ (getSummary results).total_metrics = results.length := by
  refine ⟨?_, rfl, rfl, rfl⟩
  rcases results with _ | ⟨r, rs⟩
  · simp [getSummary]
  · simp only [getSummary, List.isEmpty_cons, if_neg]
    rfl

/-- C6 (evidence of the code bug): `OODALoop.observe` on the empty dataset
(zero rows, zero columns) returns a normal observation snapshot — the source
has no validation and no error path, so degenerate input is accepted, not
rejected. -/
theorem observe_accepts_empty_dataframe :
    OODALoop.observe { cols := [], rows := [] } =
      { data_shape := (0, 0), columns := [], missing_values := [] } := rfl

/-- C8: a zero denominator — no actual positives (TPR), no actual negatives
(FPR), no predicted positives (precision), or an empty group — yields
rate/precision 0 rather than a division error, and every group iterated by
Demographic Parity / Disparate Impact has a nonempty mask, so the mean in
`posRate` is never taken over zero samples. -/
theorem zero_denominator_zero_rate (grp : List Row) (rows : List Row) :
    ((grp.filter (fun r => r.gt == "positive")).length = 0 → groupTPR grp = 0)
  ∧ ((grp.filter (fun r => !(r.gt == "positive"))).length = 0 → groupFPR grp = 0)
  ∧ ((grp.filter (fun r => r.pred == "positive")).length = 0 → groupPrecision grp = 0)
  ∧ (groupTPR [] = 0 ∧ groupFPR [] = 0 ∧ groupPrecision [] = 0 ∧ posRate [] = 0)
  ∧ (∀ g ∈ uniqueGroups rows, 0 < (groupRows rows g).length) := by
  refine ⟨?_, ?_, ?_, ⟨rfl, rfl, rfl, by simp [posRate]⟩,
    fun g hg => groupRows_length_pos hg⟩
  · intro h
    simp only [groupTPR]
    rw [if_neg (by omega)]
  · intro h
    simp only [groupFPR]
    rw [if_neg (by omega)]
  · intro h
    simp only [groupPrecision]
    rw [if_neg (by omega)]

/-- witness for C8 at concrete one-row groups with empty denominators -/
theorem zero_denominator_zero_rate_witness :
    groupTPR [⟨"positive", "negative", "g"⟩] = 0
  ∧ groupFPR [⟨"negative", "positive", "g"⟩] = 0
  ∧ groupPrecision [⟨"negative", "positive", "g"⟩] = 0 :=
  ⟨(zero_denominator_zero_rate [⟨"positive", "negative", "g"⟩] []).1 (by decide),
    (zero_denominator_zero_rate [⟨"negative", "positive", "g"⟩] []).2.1 (by decide),
    (zero_denominator_zero_rate [⟨"negative", "positive", "g"⟩] []).2.2.1 (by decide)⟩

/-- C9: in `t_test`, `mann_whitney_test`, `chi_square_test` and
`compare_multiple_variants`, the returned `is_significant` flag is true
exactly when the returned `p_value` is strictly below the tester's `alpha`
(0.05 by default). -/
theorem significance_iff_p_below_alpha (alpha p σ u e f : ℚ) (va vb ca cb : List ℚ)
    (vs : List (String × List ℚ)) (name : String) :
    ((ABTester.t_test alpha p σ va vb name).is_significant = true
      ↔ (ABTester.t_test alpha p σ va vb name).p_value < alpha)
  ∧ ((ABTester.mann_whitney_test alpha p u va vb name).is_significant = true
      ↔ (ABTester.mann_whitney_test alpha p u va vb name).p_value < alpha)
  ∧ ((ABTester.chi_square_test alpha p e ca cb name).is_significant = true
      ↔ (ABTester.chi_square_test alpha p e ca cb name).p_value < alpha)
  ∧ ((ABTester.compare_multiple_variants alpha f p vs name).is_significant = true
      ↔ (ABTester.compare_multiple_variants alpha f p vs name).p_value < alpha) := by
  refine ⟨?_, ?_, ?_, ?_⟩ <;>
    simp [ABTester.t_test, ABTester.mann_whitney_test, ABTester.chi_square_test,
      ABTester.compare_multiple_variants]

/-- witness for C9: with the default alpha 0.05 a p-value of 0.01 is
significant and one of 0.2 is not -/
theorem significance_iff_p_below_alpha_witness :
    (ABTester.t_test (1/20) (1/100) 0 [] [] "T").is_significant = true
  ∧ (ABTester.compare_multiple_variants (1/20) 0 (1/5) [] "ANOVA").is_significant = false :=
  ⟨(significance_iff_p_below_alpha (1/20) (1/100) 0 0 0 0 [] [] [] [] [] "T").1.mpr
      (by norm_num [ABTester.t_test]),
    by
      have h := (significance_iff_p_below_alpha (1/20) (1/5) 0 0 0 0 [] [] [] [] [] "ANOVA").2.2.2
      rcases hb : (ABTester.compare_multiple_variants (1/20) 0 (1/5) [] "ANOVA").is_significant with _ | _
      · rfl
      · exfalso
        have := h.mp hb
        rw [show (ABTester.compare_multiple_variants (1/20) 0 (1/5) [] "ANOVA").p_value = 1/5 from rfl] at this
        norm_num at this⟩

/-- C10: `percent_change` is 0 when variant A's mean is exactly 0 (no
division-by-zero error), and `(mean_b - mean_a) / mean_a * 100` whenever
variant A's mean is nonzero, in all three two-sample tests. -/
theorem percent_change_guard (alpha p σ u e : ℚ) (va vb ca cb : List ℚ) (name : String) :
    (listMean va = 0 → (ABTester.t_test alpha p σ va vb name).percent_change = 0)
  ∧ (listMean va ≠ 0 → (ABTester.t_test alpha p σ va vb name).percent_change
      = (listMean vb - listMean va) / listMean va * 100)
  ∧ (listMean va = 0 → (ABTester.mann_whitney_test alpha p u va vb name).percent_change = 0)
  ∧ (listMean va ≠ 0 → (ABTester.mann_whitney_test alpha p u va vb name).percent_change
      = (listMean vb - listMean va) / listMean va * 100)
  ∧ (listMean (chiProps ca) = 0 →
      (ABTester.chi_square_test alpha p e ca cb name).percent_change = 0)
  ∧ (listMean (chiProps ca) ≠ 0 →
      (ABTester.chi_square_test alpha p e ca cb name).percent_change
        = (listMean (chiProps cb) - listMean (chiProps ca)) / listMean (chiProps ca) * 100) := by
  refine ⟨fun h => ?_, fun h => ?_, fun h => ?_, fun h => ?_, fun h => ?_, fun h => ?_⟩ <;>
    simp [ABTester.t_test, ABTester.mann_whitney_test, ABTester.chi_square_test, h]

/-- witness for C10: a zero-mean variant A reports percent change 0; a
variant A with mean 2 against variant B with mean 3 reports +50% -/
theorem percent_change_guard_witness :
    (ABTester.t_test (1/20) (1/100) 0 [0, 0] [1, 2] "T").percent_change = 0
  ∧ (ABTester.mann_whitney_test (1/20) (1/100) 0 [1, 3] [3, 3] "U").percent_change
      = (listMean [3, 3] - listMean [1, 3]) / listMean [1, 3] * 100 :=
  ⟨(percent_change_guard (1/20) (1/100) 0 0 0 [0, 0] [1, 2] [] [] "T").1
      (by norm_num [listMean]),
    (percent_change_guard (1/20) (1/100) 0 0 0 [1, 3] [3, 3] [] [] "U").2.2.2.1
      (by norm_num [listMean])⟩
